import Mathlib

/-!
IPNS single-hop resolution (`namesys/routing.go`) and the Null routing stub.

A shallow embedding of `IpnsResolver.resolveOnce`.

* Go strings and byte slices are sequences of bytes (`List Nat`); `path.Path` is a Go
  string type, so a path is a byte sequence too and the empty path is `[]`.
* `time.Duration` is a signed 64-bit count of nanoseconds, held in an `Int`; the only
  place where the width matters is the conversion `time.Duration(*entry.Ttl)` of an
  unsigned 64-bit field, modelled by `int64OfUint64`.
* A `time.Time` is an `Int` count of nanoseconds on the wall clock and `Time.Sub`
  saturates at the ends of the `Duration` range, as the Go library documents.
* The library functions `resolveOnce` calls (multihash, peer, protobuf, cid, path, ipns)
  are fields of `Lib`; the routing substrate is a `ValueStore` acting on an explicit
  substrate state, and every substrate call is recorded in the call log of the run.
* A call either returns its triple or panics (inside `cid.NewCidV0`, line 104); a `Run`
  tells the two apart.
-/

namespace Namesys

/-- A Go string: a sequence of bytes. -/
abbrev GoString := List Nat

/-- A Go byte slice. -/
abbrev Bytes := List Nat

/-- A `path.Path` is a Go string. -/
abbrev Path := GoString

/-- A `peer.ID` is a Go string holding the multihash bytes. -/
abbrev PeerID := GoString

/-- The smallest `time.Duration`. -/
def minDuration : Int := -(2 ^ 63)

/-- The largest `time.Duration`. -/
def maxDuration : Int := 2 ^ 63 - 1

/-- The Go conversion of an unsigned 64-bit integer to a signed 64-bit one
(`time.Duration(u)`, `int(u)`): the two's-complement reading of the same 64 bits. -/
def int64OfUint64 (u : Nat) : Int :=
  if u % 2 ^ 64 < 2 ^ 63 then ((u % 2 ^ 64 : Nat) : Int)
  else ((u % 2 ^ 64 : Nat) : Int) - 2 ^ 64

/-- The method `t.Sub(u)` of `time.Time`: the duration `t - u`, replaced by the minimum or
maximum duration when the difference does not fit. -/
def Time.Sub (t u : Int) : Int :=
  if t - u < minDuration then minDuration
  else if maxDuration < t - u then maxDuration
  else t - u

/-- The bytes of an ASCII literal. -/
def lit (s : String) : GoString := s.data.map Char.toNat

/-- The naming-scheme marker `"/ipns/"`. -/
def ipnsMarker : GoString := lit "/ipns/"

/-- The function `strings.HasPrefix`. -/
def HasPrefix (s pre : GoString) : Bool :=
  decide (pre.length ≤ s.length) && (s.take pre.length == pre)

/-- The function `strings.TrimPrefix`: `s` without the leading `pre`, or `s` itself when
`s` does not start with `pre`. -/
def TrimPrefix (s pre : GoString) : GoString :=
  if HasPrefix s pre then s.drop pre.length else s

/-- Modelled from the spec: the record type `pb.IpnsEntry`, whose declaration is outside the
given sources (section 6: target value, signature, validity kind, validity, sequence
number, optional ttl in nanoseconds). Optional fields are pointers in Go. -/
structure IpnsEntry where
  Value : Bytes
  Signature : Bytes
  ValidityType : Option Nat
  Validity : Bytes
  Sequence : Option Nat
  Ttl : Option Nat
deriving DecidableEq, Repr

/-- The fields of `opts.ResolveOpts` that `resolveOnce` reads. -/
structure ResolveOpts where
  DhtRecordCount : Nat
  DhtTimeout : Int
deriving DecidableEq, Repr

/-- The library functions and package-level values `resolveOnce` uses, none of which is
defined in `routing.go`. `Err` is the type of Go error values, `Ctx` of contexts, `Cid` of
content identifiers. -/
structure Lib (Err Ctx Cid : Type) where
  /-- Function `context.WithTimeout`. -/
  WithTimeout : Ctx → Int → Ctx
  /-- Function `mh.FromB58String`. -/
  FromB58String : GoString → Except Err Bytes
  /-- Function `peer.IDFromBytes`. -/
  IDFromBytes : Bytes → Except Err PeerID
  /-- Function `ipns.RecordKey`. -/
  RecordKey : PeerID → GoString
  /-- Function `proto.Unmarshal` into a fresh `pb.IpnsEntry`. -/
  Unmarshal : Bytes → Except Err IpnsEntry
  /-- Function `mh.Cast`. -/
  Cast : Bytes → Except Err Bytes
  /-- Function `cid.NewCidV0`, which panics on a multihash it does not accept (one that is
  not a sha2-256 digest of 32 bytes); `none` is the panic. -/
  NewCidV0 : Bytes → Option Cid
  /-- Function `path.FromCid`. -/
  FromCid : Cid → Path
  /-- Function `path.ParsePath`. -/
  ParsePath : GoString → Except Err Path
  /-- Function `ipns.GetEOL`. -/
  GetEOL : IpnsEntry → Except Err Int
  /-- The sentinel `ipns.ErrUnrecognizedValidity`. -/
  ErrUnrecognizedValidity : Err
  /-- The package constant `DefaultResolverCacheTTL`. -/
  DefaultResolverCacheTTL : Int

/-- The routing substrate as `resolveOnce` sees it: the public-key fetch
`routing.GetPublicKey(r.routing, ctx, pid)` and the record read
`r.routing.GetValue(ctx, key, dht.Quorum(q))`, each acting on the substrate state `σ`. -/
structure ValueStore (σ Err Ctx : Type) where
  GetPublicKey : Ctx → PeerID → σ → Except Err Bytes × σ
  GetValue : Ctx → GoString → Int → σ → Except Err Bytes × σ

/-- A call made on the routing substrate. -/
inductive Call (Ctx : Type) where
  | getPublicKey (ctx : Ctx) (pid : PeerID)
  | getValue (ctx : Ctx) (key : GoString) (quorum : Int)
deriving DecidableEq, Repr

/-- What a call of `resolveOnce` that returns leaves behind: the returned triple
`(path, ttl, err)`, the substrate state, and the substrate calls made, in order. -/
structure Outcome (σ Err Ctx : Type) where
  path : Path
  ttl : Int
  err : Option Err
  state : σ
  calls : List (Call Ctx)

/-- The returned triple of an outcome. -/
def Outcome.triple {σ Err Ctx : Type} (o : Outcome σ Err Ctx) : Path × Int × Option Err :=
  (o.path, o.ttl, o.err)

/-- How a call of `resolveOnce` ends: it returns, or it panics, in which case there is no
returned triple but still a substrate state and the substrate calls made so far. -/
inductive Run (σ Err Ctx : Type) where
  | returned (o : Outcome σ Err Ctx)
  | panicked (state : σ) (calls : List (Call Ctx))

/-- The triple a run returns, if it returns. -/
def Run.triple {σ Err Ctx : Type} : Run σ Err Ctx → Option (Path × Int × Option Err)
  | .returned o => some o.triple
  | .panicked _ _ => none

/-- The substrate calls made during a run, in order. -/
def Run.calls {σ Err Ctx : Type} : Run σ Err Ctx → List (Call Ctx)
  | .returned o => o.calls
  | .panicked _ calls => calls

/-- The substrate state a run leaves behind. -/
def Run.state {σ Err Ctx : Type} : Run σ Err Ctx → σ
  | .returned o => o.state
  | .panicked state _ => state

/-- Lines 50-55 of `resolveOnce`: the context the substrate calls run under, bounded by
`options.DhtTimeout` when that is not zero. -/
def scopedCtx {Err Ctx Cid : Type} (L : Lib Err Ctx Cid) (ctx : Ctx) (options : ResolveOpts) : Ctx :=
  if options.DhtTimeout ≠ 0 then L.WithTimeout ctx options.DhtTimeout else ctx

/-- Lines 99-111 of `resolveOnce`: the path a record value stands for. A value that is a
multihash is an old style record and becomes the version-0 content-identifier path, unless
`cid.NewCidV0` panics on it (`none`); any other value is parsed as a path string. -/
def valuePath {Err Ctx Cid : Type} (L : Lib Err Ctx Cid) (entry : IpnsEntry) :
    Option (Except Err Path) :=
  match L.Cast entry.Value with
  | .ok valh =>
    match L.NewCidV0 valh with
    | some c => some (.ok (L.FromCid c))
    | none => none
  | .error _ => some (L.ParsePath entry.Value)

/-- The method `IpnsResolver.resolveOnce`; `now` is the reading of `time.Now()`. -/
def resolveOnce {σ Err Ctx Cid : Type} [DecidableEq Err]
    (L : Lib Err Ctx Cid) (r : ValueStore σ Err Ctx) (now : Int)
    (ctx : Ctx) (name : GoString) (options : ResolveOpts) (s : σ) : Run σ Err Ctx :=
  let ctx := scopedCtx L ctx options
  let name := TrimPrefix name ipnsMarker
  match L.FromB58String name with
  | .error err => .returned ⟨[], 0, some err, s, []⟩
  | .ok hash =>
  match L.IDFromBytes hash with
  | .error err => .returned ⟨[], 0, some err, s, []⟩
  | .ok pid =>
  match r.GetPublicKey ctx pid s with
  | (.error err, s1) => .returned ⟨[], 0, some err, s1, [.getPublicKey ctx pid]⟩
  | (.ok _, s1) =>
  let ipnsKey := L.RecordKey pid
  let quorum := int64OfUint64 options.DhtRecordCount
  let calls := [Call.getPublicKey ctx pid, Call.getValue ctx ipnsKey quorum]
  match r.GetValue ctx ipnsKey quorum s1 with
  | (.error err, s2) => .returned ⟨[], 0, some err, s2, calls⟩
  | (.ok val, s2) =>
  match L.Unmarshal val with
  | .error err => .returned ⟨[], 0, some err, s2, calls⟩
  | .ok entry =>
  match valuePath L entry with
  | none => .panicked s2 calls
  | some (.error err) => .returned ⟨[], 0, some err, s2, calls⟩
  | some (.ok p) =>
  let ttl : Int :=
    match entry.Ttl with
    | some t => int64OfUint64 t
    | none => L.DefaultResolverCacheTTL
  match L.GetEOL entry with
  | .error err =>
    if err = L.ErrUnrecognizedValidity then .returned ⟨p, ttl, none, s2, calls⟩
    else .returned ⟨[], 0, some err, s2, calls⟩
  | .ok eol =>
    let ttEol := Time.Sub eol now
    if ttEol < 0 then .returned ⟨p, 0, none, s2, calls⟩
    else if ttEol < ttl then .returned ⟨p, ttEol, none, s2, calls⟩
    else .returned ⟨p, ttl, none, s2, calls⟩

/-- The steps of `resolveOnce` up to line 97 all succeed: the name decodes to a peer ID, the
public key is prefetched, and the record is read from the substrate and unmarshalled into
`entry`, leaving the substrate in state `s2`. -/
def Fetched {σ Err Ctx Cid : Type} (L : Lib Err Ctx Cid) (r : ValueStore σ Err Ctx)
    (ctx : Ctx) (name : GoString) (options : ResolveOpts) (s : σ)
    (entry : IpnsEntry) (s2 : σ) : Prop :=
  ∃ hash pid k s1 val,
    L.FromB58String (TrimPrefix name ipnsMarker) = .ok hash ∧
    L.IDFromBytes hash = .ok pid ∧
    r.GetPublicKey (scopedCtx L ctx options) pid s = (.ok k, s1) ∧
    r.GetValue (scopedCtx L ctx options) (L.RecordKey pid)
      (int64OfUint64 options.DhtRecordCount) s1 = (.ok val, s2) ∧
    L.Unmarshal val = .ok entry

/-! ## A small concrete library and substrate, used to evaluate `resolveOnce` -/

/-- A concrete library over numeric error codes: 1 bad name, 2 bad peer ID, 4 bad record
bytes, 5 not a multihash, 6 bad path, 7 unrecognized validity, 8 bad expiry. Every record
unmarshals to `e`; a multihash is `code :: n :: digest` with `n` digest bytes and code 17
(sha1) or 18 (sha2-256), and `NewCidV0` accepts the sha2-256 ones of 32 bytes only; the
expiry of an EOL record (validity type 0) is the first validity byte, in nanoseconds. -/
def demoLib (e : IpnsEntry) : Lib Nat (Option Int) Bytes where
  WithTimeout := fun _ d => some d
  FromB58String := fun n => if n = [] ∨ 47 ∈ n then .error 1 else .ok n
  IDFromBytes := fun h => if h.length < 2 then .error 2 else .ok h
  RecordKey := fun pid => ipnsMarker ++ pid
  Unmarshal := fun b => if b = [] then .error 4 else .ok e
  Cast := fun b =>
    match b with
    | c :: n :: d => if (c = 17 ∨ c = 18) ∧ d.length = n then .ok b else .error 5
    | _ => .error 5
  NewCidV0 := fun m =>
    match m with
    | c :: n :: d => if c = 18 ∧ n = 32 ∧ d.length = 32 then some m else none
    | _ => none
  FromCid := fun c => lit "/ipfs/" ++ c
  ParsePath := fun t => if t.head? = some 47 then .ok t else .error 6
  GetEOL := fun en =>
    if en.ValidityType.getD 0 = 0 then
      match en.Validity with
      | [] => .error 8
      | d :: _ => .ok (Int.ofNat d)
    else .error 7
  ErrUnrecognizedValidity := 7
  DefaultResolverCacheTTL := 60000000000

/-- A concrete substrate whose state counts the calls served: the key of every peer but
`"nokey"` is available (error 3), and every record key but `"/ipns/norec"` holds the one
byte `1` (error 9). -/
def demoStore : ValueStore Nat Nat (Option Int) where
  GetPublicKey := fun _ pid n => (if pid = lit "nokey" then .error 3 else .ok pid, n + 1)
  GetValue := fun _ key _ n =>
    (if key = ipnsMarker ++ lit "norec" then .error 9 else .ok [1], n + 1)

/-- A record for the path `"/ipfs/x"` with the given ttl, validity type and validity. -/
def demoEntry (ttl : Option Nat) (vt : Option Nat) (validity : Bytes) : IpnsEntry :=
  { Value := lit "/ipfs/x", Signature := [], ValidityType := vt, Validity := validity,
    Sequence := some 1, Ttl := ttl }

/-- A sha2-256 multihash: code 18, length 32, and a digest of 32 bytes `7`. -/
def sha256Hash : Bytes := 18 :: 32 :: List.replicate 32 7

/-- A sha1 multihash: code 17, length 20, and a digest of 20 bytes `7`. -/
def sha1Hash : Bytes := 17 :: 20 :: List.replicate 20 7

/-- A legacy record whose value is the multihash `value`. -/
def legacyEntry (value : Bytes) (vt : Option Nat) (validity : Bytes) : IpnsEntry :=
  { Value := value, Signature := [], ValidityType := vt, Validity := validity,
    Sequence := some 1, Ttl := none }

/-- A concrete substrate whose answers depend on its state: it is `demoStore`, except that
once it has served 10 calls the key of the peer `"old"` and the record `"/ipns/old"` are
gone (errors 3 and 9). -/
def agingStore : ValueStore Nat Nat (Option Int) where
  GetPublicKey := fun _ pid n =>
    (if pid = lit "nokey" ∨ (pid = lit "old" ∧ 10 ≤ n) then .error 3 else .ok pid, n + 1)
  GetValue := fun _ key _ n =>
    (if key = ipnsMarker ++ lit "norec" ∨ (key = ipnsMarker ++ lit "old" ∧ 10 ≤ n)
      then .error 9 else .ok [1], n + 1)

/-- Default options: quorum 16, no timeout. -/
def demoOpts : ResolveOpts := { DhtRecordCount := 16, DhtTimeout := 0 }

/-! ## The Null routing stub -/

/-- The sentinel errors `routing.ErrNotSupported` and `routing.ErrNotFound`. -/
inductive RoutingError where
  | ErrNotSupported
  | ErrNotFound
deriving DecidableEq, Repr

/-- A Go channel as its receiver sees it: the values still queued and whether the channel
has been closed. -/
structure Chan (α : Type) where
  queue : List α
  closed : Bool
deriving DecidableEq, Repr

/-- The receive `v, ok := <-ch`. A queued value is delivered with `ok = true`; an empty
closed channel answers at once with `ok = false`; an empty open channel blocks (`none`). -/
def Chan.recv {α : Type} (ch : Chan α) : Option (Option α × Bool) :=
  match ch.queue, ch.closed with
  | v :: _, _ => some (some v, true)
  | [], true => some (none, false)
  | [], false => none

/-- Modelled from the spec: the method `Null.PutValue`, whose source is outside the given
files (section 4.4: every write operation fails with "unsupported"). `none` is a nil error. -/
def Null.PutValue {Ctx : Type} (_ctx : Ctx) (_key : GoString) (_value : Bytes) :
    Option RoutingError :=
  some RoutingError.ErrNotSupported

/-- Modelled from the spec: the method `Null.GetValue`, whose source is outside the given
files (section 4.4: every read fails with "not found"). -/
def Null.GetValue {Ctx Opt : Type} (_ctx : Ctx) (_key : GoString) (_opts : List Opt) :
    Except RoutingError Bytes :=
  .error RoutingError.ErrNotFound

/-- Modelled from the spec: the method `Null.Provide`, whose source is outside the given
files (section 4.4: announce fails with "unsupported"). -/
def Null.Provide {Ctx Cid : Type} (_ctx : Ctx) (_c : Cid) (_bcast : Bool) :
    Option RoutingError :=
  some RoutingError.ErrNotSupported

/-- Modelled from the spec: the method `Null.FindProvidersAsync`, whose source is outside the
given files (section 4.4: discover yields an already-exhausted empty sequence). -/
def Null.FindProvidersAsync {Ctx Cid PeerInfo : Type} (_ctx : Ctx) (_c : Cid) (_count : Int) :
    Chan PeerInfo :=
  { queue := [], closed := true }

/-- Modelled from the spec: the method `Null.FindPeer`, whose source is outside the given
files (section 4.4: lookup-peer fails with "not found"). -/
def Null.FindPeer {Ctx PeerInfo : Type} (_ctx : Ctx) (_p : PeerID) :
    Except RoutingError PeerInfo :=
  .error RoutingError.ErrNotFound

/-! ## Lemmas on the string and integer helpers -/

theorem hasPrefix_append (pre n : GoString) : HasPrefix (pre ++ n) pre = true := by
  simp [HasPrefix]

theorem trimPrefix_append (pre n : GoString) : TrimPrefix (pre ++ n) pre = n := by
  simp [TrimPrefix, hasPrefix_append]

theorem trimPrefix_of_not_hasPrefix (pre n : GoString) (h : HasPrefix n pre = false) :
    TrimPrefix n pre = n := by
  simp [TrimPrefix, h]

theorem int64OfUint64_le_max (u : Nat) : int64OfUint64 u ≤ maxDuration := by
  unfold int64OfUint64 maxDuration
  split <;> omega

theorem int64OfUint64_of_lt (u : Nat) (h : u < 2 ^ 63) : int64OfUint64 u = (u : Int) := by
  unfold int64OfUint64
  have h1 : u % 2 ^ 64 = u := Nat.mod_eq_of_lt (by omega)
  rw [h1, if_pos h]

theorem int64OfUint64_neg_of_ge (u : Nat) (h1 : 2 ^ 63 ≤ u) (h2 : u < 2 ^ 64) :
    int64OfUint64 u < 0 := by
  unfold int64OfUint64
  have h3 : u % 2 ^ 64 = u := Nat.mod_eq_of_lt h2
  rw [h3, if_neg (by omega)]
  omega

theorem Time.Sub_cases (t u : Int) :
    (t - u < -(2 ^ 63) ∧ Time.Sub t u = -(2 ^ 63)) ∨
    (2 ^ 63 - 1 < t - u ∧ Time.Sub t u = 2 ^ 63 - 1) ∨
    (-(2 ^ 63) ≤ t - u ∧ t - u ≤ 2 ^ 63 - 1 ∧ Time.Sub t u = t - u) := by
  unfold Time.Sub minDuration maxDuration
  split_ifs <;> omega

/-- With a baseline `b` inside the non-negative `Duration` range, the branches of lines
121-127 compute `max 0 (min b (eol - now))`, the saturation of `Time.Sub` notwithstanding. -/
theorem ttl_branches_eq (b eol now : Int) (h0 : 0 ≤ b) (h1 : b ≤ maxDuration) :
    (if Time.Sub eol now < 0 then 0 else if Time.Sub eol now < b then Time.Sub eol now else b)
      = max 0 (min b (eol - now)) := by
  unfold maxDuration at h1
  have hT := Time.Sub_cases eol now
  generalize Time.Sub eol now = T at hT ⊢
  generalize eol - now = d at hT ⊢
  rw [max_def, min_def]
  split_ifs <;> omega

/-! ## Expiry and TTL (lines 113-133) -/

/-- The ttl of a call that fetched `entry`, decoded its path and found the expiry `eol`,
for a baseline inside the non-negative `Duration` range: the default of the package is in
that range by assumption and an explicit `Ttl` is there when it is below `2 ^ 63`. -/
theorem resolveOnce_ttl_of_nonneg_baseline {σ Err Ctx Cid : Type} [DecidableEq Err]
    (L : Lib Err Ctx Cid) (r : ValueStore σ Err Ctx) (now : Int) (ctx : Ctx)
    (name : GoString) (options : ResolveOpts) (s s2 : σ) (entry : IpnsEntry) (p : Path)
    (eol : Int)
    (hf : Fetched L r ctx name options s entry s2)
    (hp : valuePath L entry = some (.ok p))
    (he : L.GetEOL entry = .ok eol)
    (hd : 0 ≤ L.DefaultResolverCacheTTL ∧ L.DefaultResolverCacheTTL ≤ maxDuration)
    (ht : ∀ t, entry.Ttl = some t → t < 2 ^ 63) :
    (resolveOnce L r now ctx name options s).triple =
      some (p, max 0 (min (match entry.Ttl with
                      | some t => (t : Int)
                      | none => L.DefaultResolverCacheTTL) (eol - now)), none) := by
  obtain ⟨hash, pid, k, s1, val, h1, h2, h3, h4, h5⟩ := hf
  cases hT : entry.Ttl with
  | none =>
    have key := ttl_branches_eq L.DefaultResolverCacheTTL eol now hd.1 hd.2
    simp only [resolveOnce, h1, h2, h3, h4, h5, hp, he, hT]
    rw [← key]
    split_ifs <;> rfl
  | some t =>
    have hlt := ht t hT
    have key := ttl_branches_eq (t : Int) eol now (by omega)
      (by unfold maxDuration; omega)
    simp only [resolveOnce, h1, h2, h3, h4, h5, hp, he, hT,
      int64OfUint64_of_lt t hlt]
    rw [← key]
    split_ifs <;> rfl

/-- The ttl of every call that returns is non-negative when the package default is
non-negative and no record the library unmarshals carries a `Ttl` of `2 ^ 63` or more. -/
theorem resolveOnce_ttl_nonneg_of_small_ttl {σ Err Ctx Cid : Type} [DecidableEq Err]
    (L : Lib Err Ctx Cid) (r : ValueStore σ Err Ctx) (now : Int) (ctx : Ctx)
    (name : GoString) (options : ResolveOpts) (s : σ)
    (hd : 0 ≤ L.DefaultResolverCacheTTL)
    (ht : ∀ val entry t, L.Unmarshal val = .ok entry → entry.Ttl = some t → t < 2 ^ 63)
    (p : Path) (ttl : Int) (err : Option Err)
    (hr : (resolveOnce L r now ctx name options s).triple = some (p, ttl, err)) :
    0 ≤ ttl := by
  have zero : ∀ (q : Path) (e : Option Err) (t : σ) (cs : List (Call Ctx)),
      (Run.returned ⟨q, 0, e, t, cs⟩ : Run σ Err Ctx).triple = some (p, ttl, err) →
      0 ≤ ttl := by
    intro q e t cs h
    simp only [Run.triple, Outcome.triple, Option.some.injEq, Prod.mk.injEq] at h
    omega
  unfold resolveOnce at hr
  simp only [] at hr
  split at hr
  · exact zero _ _ _ _ hr
  split at hr
  · exact zero _ _ _ _ hr
  split at hr
  · exact zero _ _ _ _ hr
  split at hr
  · exact zero _ _ _ _ hr
  split at hr
  · exact zero _ _ _ _ hr
  rename_i val s2 hval entry hent
  have hb : 0 ≤ (match entry.Ttl with
      | some t => int64OfUint64 t
      | none => L.DefaultResolverCacheTTL) := by
    cases hT : entry.Ttl with
    | none => simpa using hd
    | some t =>
      have := ht _ _ t hent hT
      simp only [int64OfUint64_of_lt t this]
      omega
  split at hr
  · simp [Run.triple] at hr
  · exact zero _ _ _ _ hr
  split at hr
  · split_ifs at hr
    · simp only [Run.triple, Outcome.triple, Option.some.injEq, Prod.mk.injEq] at hr
      omega
    · exact zero _ _ _ _ hr
  · split_ifs at hr
    · exact zero _ _ _ _ hr
    · simp only [Run.triple, Outcome.triple, Option.some.injEq, Prod.mk.injEq] at hr
      omega
    · simp only [Run.triple, Outcome.triple, Option.some.injEq, Prod.mk.injEq] at hr
      omega

/-- Claim C1, evaluated where it fails: a record with the explicit `Ttl` `2 ^ 63` whose
expiry lies 5 ns ahead of the clock resolves to its path, but the returned ttl is the
wrapped baseline `-(2 ^ 63)`, not `max 0 (min b (eol - now))`, which is `0` for that
baseline and `5` for the unsigned field value. -/
theorem resolveOnce_wrapped_ttl_before_expiry :
    (resolveOnce (demoLib (demoEntry (some (2 ^ 63)) (some 0) [100])) demoStore 95 none
        (lit "/ipns/QmA") demoOpts 0).triple = some (lit "/ipfs/x", -(2 ^ 63), none)
    ∧ max 0 (min (int64OfUint64 (2 ^ 63)) (100 - 95)) = 0
    ∧ max 0 (min ((2 ^ 63 : Nat) : Int) (100 - 95)) = 5 := by
  refine ⟨by decide, by decide, by decide⟩

/-- Claim C2, evaluated where it fails: a record with the explicit `Ttl` `2 ^ 64 - 1` and an
unrecognized validity kind resolves without error and with the negative ttl `-1`. -/
theorem resolveOnce_negative_ttl :
    (resolveOnce (demoLib (demoEntry (some (2 ^ 64 - 1)) (some 3) [])) demoStore 95 none
        (lit "/ipns/QmA") demoOpts 0).triple = some (lit "/ipfs/x", -1, none)
    ∧ ∃ p ttl, (resolveOnce (demoLib (demoEntry (some (2 ^ 64 - 1)) (some 3) [])) demoStore
        95 none (lit "/ipns/QmA") demoOpts 0).triple = some (p, ttl, none) ∧ ttl < 0 := by
  refine ⟨by decide, lit "/ipfs/x", -1, by decide, by decide⟩

/-! ## Name decoding and the order of the substrate calls (lines 57-90) -/

/-- Claim C3: when the name left after stripping `"/ipns/"` fails base-58 multihash decoding,
or decodes but fails the conversion to a peer ID, `resolveOnce` returns the empty path, ttl
0 and the decoder's error, leaves the substrate state as it was, and makes no substrate
call at all. -/
theorem resolveOnce_invalid_name {σ Err Ctx Cid : Type} [DecidableEq Err]
    (L : Lib Err Ctx Cid) (r : ValueStore σ Err Ctx) (now : Int) (ctx : Ctx)
    (name : GoString) (options : ResolveOpts) (s : σ) (e : Err)
    (h : L.FromB58String (TrimPrefix name ipnsMarker) = .error e ∨
         ∃ hash, L.FromB58String (TrimPrefix name ipnsMarker) = .ok hash ∧
           L.IDFromBytes hash = .error e) :
    resolveOnce L r now ctx name options s = .returned ⟨[], 0, some e, s, []⟩ := by
  rcases h with h | ⟨hash, h1, h2⟩
  · simp only [resolveOnce, h]
  · simp only [resolveOnce, h1, h2]

theorem resolveOnce_invalid_name_witness :
    resolveOnce (demoLib (demoEntry none none [])) demoStore 0 none (lit "/ipns/a/b")
      demoOpts 0 = .returned ⟨[], 0, some 1, 0, []⟩
    ∧ resolveOnce (demoLib (demoEntry none none [])) demoStore 0 none (lit "/ipns/Q")
      demoOpts 0 = .returned ⟨[], 0, some 2, 0, []⟩ :=
  ⟨resolveOnce_invalid_name _ _ _ _ _ _ _ 1 (Or.inl rfl),
   resolveOnce_invalid_name _ _ _ _ _ _ _ 2 (Or.inr ⟨lit "Q", rfl, rfl⟩)⟩

/-- Claim C4: whenever the call log of `resolveOnce` holds a record read, the name decoded to
a peer ID, the public-key prefetch for that peer ID returned successfully, and the log is
exactly that prefetch followed by the one record read; and whenever the prefetch fails,
`resolveOnce` returns the empty path, ttl 0 and the prefetch error, having made the
prefetch call only. -/
theorem resolveOnce_prefetch_before_fetch {σ Err Ctx Cid : Type} [DecidableEq Err]
    (L : Lib Err Ctx Cid) (r : ValueStore σ Err Ctx) (now : Int) (ctx : Ctx)
    (name : GoString) (options : ResolveOpts) (s : σ) :
    (∀ c key q, Call.getValue c key q ∈ (resolveOnce L r now ctx name options s).calls →
      ∃ hash pid k s1,
        L.FromB58String (TrimPrefix name ipnsMarker) = .ok hash ∧
        L.IDFromBytes hash = .ok pid ∧
        r.GetPublicKey (scopedCtx L ctx options) pid s = (.ok k, s1) ∧
        (resolveOnce L r now ctx name options s).calls =
          [Call.getPublicKey (scopedCtx L ctx options) pid,
           Call.getValue (scopedCtx L ctx options) (L.RecordKey pid)
             (int64OfUint64 options.DhtRecordCount)])
    ∧ (∀ hash pid e s1,
        L.FromB58String (TrimPrefix name ipnsMarker) = .ok hash →
        L.IDFromBytes hash = .ok pid →
        r.GetPublicKey (scopedCtx L ctx options) pid s = (.error e, s1) →
        resolveOnce L r now ctx name options s =
          .returned ⟨[], 0, some e, s1, [Call.getPublicKey (scopedCtx L ctx options) pid]⟩) := by
  constructor
  · intro c key q hmem
    cases h1 : L.FromB58String (TrimPrefix name ipnsMarker) with
    | error e => simp [resolveOnce, h1, Run.calls] at hmem
    | ok hash =>
      cases h2 : L.IDFromBytes hash with
      | error e => simp [resolveOnce, h1, h2, Run.calls] at hmem
      | ok pid =>
        rcases h3 : r.GetPublicKey (scopedCtx L ctx options) pid s with ⟨res, s1⟩
        cases res with
        | error e => simp [resolveOnce, h1, h2, h3, Run.calls] at hmem
        | ok k =>
          refine ⟨hash, pid, k, s1, rfl, h2, h3, ?_⟩
          simp only [resolveOnce, h1, h2, h3]
          repeat' split
          all_goals rfl
  · intro hash pid e s1 h1 h2 h3
    simp only [resolveOnce, h1, h2, h3]

theorem resolveOnce_prefetch_before_fetch_witness :
    resolveOnce (demoLib (demoEntry none none [])) demoStore 0 none (lit "/ipns/nokey")
      demoOpts 0 = .returned ⟨[], 0, some 3, 1, [Call.getPublicKey none (lit "nokey")]⟩ :=
  (resolveOnce_prefetch_before_fetch (demoLib (demoEntry none none [])) demoStore 0 none
    (lit "/ipns/nokey") demoOpts 0).2 (lit "nokey") (lit "nokey") 3 1
    rfl rfl rfl

/-! ## The path of the record value (lines 99-111) -/

/-- Claim C5 fails as stated: a fetched legacy record whose value is the sha2-256
multihash `sha256Hash`, which `NewCidV0` accepts, but whose expiry does not parse makes
`resolveOnce` return the empty path with the expiry error, not the content-identifier path
of the multihash. -/
theorem resolveOnce_legacy_path_dropped_on_expiry_error :
    Fetched (demoLib (legacyEntry sha256Hash (some 0) [])) demoStore none (lit "/ipns/QmA")
        demoOpts 0 (legacyEntry sha256Hash (some 0) []) 2
    ∧ (demoLib (legacyEntry sha256Hash (some 0) [])).Cast
        (legacyEntry sha256Hash (some 0) []).Value = .ok sha256Hash
    ∧ (demoLib (legacyEntry sha256Hash (some 0) [])).NewCidV0 sha256Hash = some sha256Hash
    ∧ (resolveOnce (demoLib (legacyEntry sha256Hash (some 0) [])) demoStore 95 none
        (lit "/ipns/QmA") demoOpts 0).triple = some ([], 0, some 8)
    ∧ ∀ ttl err, (resolveOnce (demoLib (legacyEntry sha256Hash (some 0) [])) demoStore 95
        none (lit "/ipns/QmA") demoOpts 0).triple
        ≠ some ((demoLib (legacyEntry sha256Hash (some 0) [])).FromCid sha256Hash, ttl,
            err) := by
  have h0 : (resolveOnce (demoLib (legacyEntry sha256Hash (some 0) [])) demoStore 95 none
      (lit "/ipns/QmA") demoOpts 0).triple = some ([], 0, some 8) := by decide
  refine ⟨⟨lit "QmA", lit "QmA", lit "QmA", 1, [1], rfl, rfl, rfl, rfl, rfl⟩, rfl, rfl,
    h0, ?_⟩
  intro ttl err h
  rw [h0] at h
  have h1 := congrArg (fun o => o.map (fun t => t.1)) h
  simp only [Option.map] at h1
  exact absurd h1 (by decide)

/-- A fetched legacy record whose value is a sha1 multihash, which `Cast` accepts and
`NewCidV0` does not: the call panics at line 104 after both substrate calls and returns
nothing. -/
theorem resolveOnce_panics_on_sha1_value :
    (demoLib (legacyEntry sha1Hash (some 0) [100])).Cast
        (legacyEntry sha1Hash (some 0) [100]).Value = .ok sha1Hash
    ∧ resolveOnce (demoLib (legacyEntry sha1Hash (some 0) [100])) demoStore 95 none
        (lit "/ipns/QmA") demoOpts 0
      = .panicked 2 [Call.getPublicKey none (lit "QmA"),
          Call.getValue none (lit "/ipns/QmA") 16] := by
  refine ⟨rfl, rfl⟩

/-- Claim C5, amended: for a fetched record whose expiry lookup does not fail with an error
other than `ErrUnrecognizedValidity`: when the value bytes are a multihash `M` that
`NewCidV0` accepts, `resolveOnce` returns without error the path `FromCid` of that content
identifier; whenever the value bytes are a multihash, the run does not depend on `ParsePath`
at all; when they are not, a value that `ParsePath` accepts gives the parsed path, and a
value it rejects fails the call with the parse error, empty path and ttl 0. -/
theorem resolveOnce_value_path {σ Err Ctx Cid : Type} [DecidableEq Err]
    (L : Lib Err Ctx Cid) (r : ValueStore σ Err Ctx) (now : Int) (ctx : Ctx)
    (name : GoString) (options : ResolveOpts) (s s2 : σ) (entry : IpnsEntry)
    (hf : Fetched L r ctx name options s entry s2)
    (he : ∀ e, L.GetEOL entry = .error e → e = L.ErrUnrecognizedValidity) :
    (∀ M c, L.Cast entry.Value = .ok M → L.NewCidV0 M = some c →
      ∃ ttl, (resolveOnce L r now ctx name options s).triple = some (L.FromCid c, ttl, none))
    ∧ (∀ M, L.Cast entry.Value = .ok M →
      ∀ pp, resolveOnce { L with ParsePath := pp } r now ctx name options s =
        resolveOnce L r now ctx name options s)
    ∧ (∀ e0, L.Cast entry.Value = .error e0 →
      (∀ p, L.ParsePath entry.Value = .ok p →
        ∃ ttl, (resolveOnce L r now ctx name options s).triple = some (p, ttl, none)) ∧
      (∀ e, L.ParsePath entry.Value = .error e →
        (resolveOnce L r now ctx name options s).triple = some ([], 0, some e))) := by
  obtain ⟨hash, pid, k, s1, val, h1, h2, h3, h4, h5⟩ := hf
  simp only [scopedCtx] at h3 h4
  have tail : ∀ p, valuePath L entry = some (.ok p) →
      ∃ ttl, (resolveOnce L r now ctx name options s).triple = some (p, ttl, none) := by
    intro p hp
    simp only [resolveOnce, scopedCtx, h1, h2, h3, h4, h5, hp]
    cases hE : L.GetEOL entry with
    | error e =>
      have := he e hE
      subst this
      simp only [if_true, Run.triple, Outcome.triple]
      exact ⟨_, rfl⟩
    | ok eol =>
      simp only []
      split_ifs <;> exact ⟨_, rfl⟩
  refine ⟨?_, ?_, ?_⟩
  · intro M c hM hc
    exact tail _ (by simp only [valuePath, hM, hc])
  · intro M hM pp
    simp only [resolveOnce, scopedCtx, valuePath, h1, h2, h3, h4, h5, hM]
  · intro e0 hC
    refine ⟨?_, ?_⟩
    · intro p hP
      exact tail p (by simp only [valuePath, hC, hP])
    · intro e hP
      have hp : valuePath L entry = some (.error e) := by simp only [valuePath, hC, hP]
      simp only [resolveOnce, scopedCtx, h1, h2, h3, h4, h5, hp, Run.triple, Outcome.triple]

theorem resolveOnce_value_path_witness :
    ∃ ttl, (resolveOnce (demoLib (legacyEntry sha256Hash (some 0) [100])) demoStore 95 none
        (lit "/ipns/QmA") demoOpts 0).triple = some (lit "/ipfs/" ++ sha256Hash, ttl, none) :=
  (resolveOnce_value_path (demoLib (legacyEntry sha256Hash (some 0) [100])) demoStore 95 none
    (lit "/ipns/QmA") demoOpts 0 2 (legacyEntry sha256Hash (some 0) [100])
    ⟨lit "QmA", lit "QmA", lit "QmA", 1, [1], rfl, rfl, rfl, rfl, rfl⟩
    (fun e h => by cases h)).1 sha256Hash sha256Hash rfl rfl

/-! ## Unrecognized validity and expiry errors (lines 117-131) -/

/-- For a fetched and decoded record whose expiry lookup reports `ErrUnrecognizedValidity`,
`resolveOnce` succeeds with the decoded path and with the baseline of lines 113-116 as ttl,
untouched: the conversion `time.Duration(*entry.Ttl)` when the record has a `Ttl`,
`DefaultResolverCacheTTL` otherwise. -/
theorem resolveOnce_unrecognized_validity {σ Err Ctx Cid : Type} [DecidableEq Err]
    (L : Lib Err Ctx Cid) (r : ValueStore σ Err Ctx) (now : Int) (ctx : Ctx)
    (name : GoString) (options : ResolveOpts) (s s2 : σ) (entry : IpnsEntry) (p : Path)
    (hf : Fetched L r ctx name options s entry s2)
    (hp : valuePath L entry = some (.ok p))
    (he : L.GetEOL entry = .error L.ErrUnrecognizedValidity) :
    (resolveOnce L r now ctx name options s).triple =
      some (p, (match entry.Ttl with
           | some t => int64OfUint64 t
           | none => L.DefaultResolverCacheTTL), none) := by
  obtain ⟨hash, pid, k, s1, val, h1, h2, h3, h4, h5⟩ := hf
  simp only [resolveOnce, h1, h2, h3, h4, h5, hp, he, Run.triple, Outcome.triple, if_true]

/-- For a fetched and decoded record whose expiry lookup reports `ErrUnrecognizedValidity`
and whose explicit `Ttl`, if any, is below `2 ^ 63`, the returned ttl is exactly that `Ttl`,
or `DefaultResolverCacheTTL` when the record has none. -/
theorem resolveOnce_unrecognized_validity_small_ttl {σ Err Ctx Cid : Type} [DecidableEq Err]
    (L : Lib Err Ctx Cid) (r : ValueStore σ Err Ctx) (now : Int) (ctx : Ctx)
    (name : GoString) (options : ResolveOpts) (s s2 : σ) (entry : IpnsEntry) (p : Path)
    (hf : Fetched L r ctx name options s entry s2)
    (hp : valuePath L entry = some (.ok p))
    (he : L.GetEOL entry = .error L.ErrUnrecognizedValidity)
    (ht : ∀ t, entry.Ttl = some t → t < 2 ^ 63) :
    (resolveOnce L r now ctx name options s).triple =
      some (p, (match entry.Ttl with
           | some t => (t : Int)
           | none => L.DefaultResolverCacheTTL), none) := by
  rw [resolveOnce_unrecognized_validity L r now ctx name options s s2 entry p hf hp he]
  cases hT : entry.Ttl with
  | none => rfl
  | some t => simp only [int64OfUint64_of_lt t (ht t hT)]

/-- Claim C6, evaluated where it fails: a record with the explicit `Ttl` `2 ^ 63 + 7` and an
unrecognized validity kind resolves without error, but the returned ttl is the wrapped
`-(2 ^ 63) + 7`, which is not the record's explicit `Ttl`. -/
theorem resolveOnce_unrecognized_validity_wrapped_ttl :
    (resolveOnce (demoLib (demoEntry (some (2 ^ 63 + 7)) (some 3) [])) demoStore 95 none
        (lit "/ipns/QmA") demoOpts 0).triple = some (lit "/ipfs/x", -(2 ^ 63) + 7, none)
    ∧ (demoLib (demoEntry (some (2 ^ 63 + 7)) (some 3) [])).GetEOL
        (demoEntry (some (2 ^ 63 + 7)) (some 3) [])
        = .error (demoLib (demoEntry (some (2 ^ 63 + 7)) (some 3) [])).ErrUnrecognizedValidity
    ∧ (-(2 ^ 63) + 7 : Int) ≠ ((2 ^ 63 + 7 : Nat) : Int) := by
  refine ⟨by decide, rfl, by decide⟩

/-- Claim C7: for a fetched record whose path is already decoded and whose expiry lookup
fails with an error other than `ErrUnrecognizedValidity`, `resolveOnce` fails with that
error and returns the empty path and ttl 0. -/
theorem resolveOnce_validity_error {σ Err Ctx Cid : Type} [DecidableEq Err]
    (L : Lib Err Ctx Cid) (r : ValueStore σ Err Ctx) (now : Int) (ctx : Ctx)
    (name : GoString) (options : ResolveOpts) (s s2 : σ) (entry : IpnsEntry) (p : Path)
    (e : Err)
    (hf : Fetched L r ctx name options s entry s2)
    (hp : valuePath L entry = some (.ok p))
    (he : L.GetEOL entry = .error e)
    (hne : e ≠ L.ErrUnrecognizedValidity) :
    (resolveOnce L r now ctx name options s).triple = some ([], 0, some e) := by
  obtain ⟨hash, pid, k, s1, val, h1, h2, h3, h4, h5⟩ := hf
  simp only [resolveOnce, h1, h2, h3, h4, h5, hp, he, Run.triple, Outcome.triple, if_neg hne]

theorem resolveOnce_validity_error_witness :
    (resolveOnce (demoLib (demoEntry (some 7) (some 0) [])) demoStore 95 none
        (lit "/ipns/QmA") demoOpts 0).triple = some ([], 0, some 8) :=
  resolveOnce_validity_error (demoLib (demoEntry (some 7) (some 0) [])) demoStore 95
    none (lit "/ipns/QmA") demoOpts 0 2 (demoEntry (some 7) (some 0) []) (lit "/ipfs/x") 8
    ⟨lit "QmA", lit "QmA", lit "QmA", 1, [1], rfl, rfl, rfl, rfl, rfl⟩ rfl rfl (by decide)

/-! ## What the returned triple depends on -/

/-- Claim C8 fails as stated: with the same name, options and substrate responses, a call
made when the clock reads 95 and one made when it reads 97 return different ttls (5 and 3)
for a record expiring at 100. -/
theorem resolveOnce_depends_on_clock :
    (resolveOnce (demoLib (demoEntry none (some 0) [100])) demoStore 95 none
        (lit "/ipns/QmA") demoOpts 0).triple = some (lit "/ipfs/x", 5, none)
    ∧ (resolveOnce (demoLib (demoEntry none (some 0) [100])) demoStore 97 none
        (lit "/ipns/QmA") demoOpts 0).triple = some (lit "/ipfs/x", 3, none)
    ∧ (resolveOnce (demoLib (demoEntry none (some 0) [100])) demoStore 95 none
        (lit "/ipns/QmA") demoOpts 0).triple
      ≠ (resolveOnce (demoLib (demoEntry none (some 0) [100])) demoStore 97 none
        (lit "/ipns/QmA") demoOpts 0).triple := by
  refine ⟨by decide, by decide, by decide⟩

/-- Claim C8, amended: two calls of `resolveOnce` with the same name, the same options and
context and the same reading of the clock, on substrates of any kind and in any state, end
the same way (both panic, or both return equal `(path, ttl, err)` triples) as soon as the
two calls they make get the same answers: the public-key fetch for the peer ID of the name
gives the same result in both, and, where it succeeds, the record read that follows it
gives the same result in both. Nothing is asked of the substrates on any other peer ID,
key, quorum or context. -/
theorem resolveOnce_determined_by_responses {σ τ Err Ctx Cid : Type} [DecidableEq Err]
    (L : Lib Err Ctx Cid) (r1 : ValueStore σ Err Ctx) (r2 : ValueStore τ Err Ctx)
    (now : Int) (ctx : Ctx) (name : GoString) (options : ResolveOpts) (s1 : σ) (s2 : τ)
    (hpk : ∀ hash pid,
      L.FromB58String (TrimPrefix name ipnsMarker) = .ok hash →
      L.IDFromBytes hash = .ok pid →
      (r1.GetPublicKey (scopedCtx L ctx options) pid s1).1 =
        (r2.GetPublicKey (scopedCtx L ctx options) pid s2).1)
    (hval : ∀ hash pid k,
      L.FromB58String (TrimPrefix name ipnsMarker) = .ok hash →
      L.IDFromBytes hash = .ok pid →
      (r1.GetPublicKey (scopedCtx L ctx options) pid s1).1 = .ok k →
      (r1.GetValue (scopedCtx L ctx options) (L.RecordKey pid)
          (int64OfUint64 options.DhtRecordCount)
          (r1.GetPublicKey (scopedCtx L ctx options) pid s1).2).1 =
        (r2.GetValue (scopedCtx L ctx options) (L.RecordKey pid)
          (int64OfUint64 options.DhtRecordCount)
          (r2.GetPublicKey (scopedCtx L ctx options) pid s2).2).1) :
    (resolveOnce L r1 now ctx name options s1).triple =
      (resolveOnce L r2 now ctx name options s2).triple := by
  cases h1 : L.FromB58String (TrimPrefix name ipnsMarker) with
  | error e => simp only [resolveOnce, h1, Run.triple, Outcome.triple]
  | ok hash =>
    cases h2 : L.IDFromBytes hash with
    | error e => simp only [resolveOnce, h1, h2, Run.triple, Outcome.triple]
    | ok pid =>
      have hk := hpk hash pid h1 h2
      have hv := fun k => hval hash pid k h1 h2
      rcases ha : r1.GetPublicKey (scopedCtx L ctx options) pid s1 with ⟨a1, t1⟩
      rcases hb : r2.GetPublicKey (scopedCtx L ctx options) pid s2 with ⟨a2, t2⟩
      rw [ha, hb] at hk
      rw [ha, hb] at hv
      simp only at hk hv
      subst hk
      cases a1 with
      | error e => simp only [resolveOnce, h1, h2, ha, hb, Run.triple, Outcome.triple]
      | ok k =>
        have hv := hv k rfl
        rcases hc : r1.GetValue (scopedCtx L ctx options) (L.RecordKey pid)
          (int64OfUint64 options.DhtRecordCount) t1 with ⟨v1, u1⟩
        rcases hd : r2.GetValue (scopedCtx L ctx options) (L.RecordKey pid)
          (int64OfUint64 options.DhtRecordCount) t2 with ⟨v2, u2⟩
        rw [hc, hd] at hv
        simp only at hv
        subst hv
        cases v1 with
        | error e =>
          simp only [resolveOnce, h1, h2, ha, hb, hc, hd, Run.triple, Outcome.triple]
        | ok val =>
          simp only [resolveOnce, h1, h2, ha, hb, hc, hd]
          cases L.Unmarshal val with
          | error e => rfl
          | ok entry =>
            simp only []
            cases valuePath L entry with
            | none => rfl
            | some vp =>
              cases vp with
              | error e => rfl
              | ok p =>
                simp only []
                cases L.GetEOL entry with
                | error e => simp only []; split_ifs <;> rfl
                | ok eol => simp only []; split_ifs <;> rfl

theorem resolveOnce_determined_by_responses_witness :
    (agingStore.GetPublicKey none (lit "old") 0).1
      ≠ (agingStore.GetPublicKey none (lit "old") 40).1
    ∧ (resolveOnce (demoLib (demoEntry none (some 0) [100])) agingStore 95 none
        (lit "/ipns/QmA") demoOpts 0).triple
      = (resolveOnce (demoLib (demoEntry none (some 0) [100])) agingStore 95 none
        (lit "/ipns/QmA") demoOpts 40).triple :=
  ⟨fun h => Except.noConfusion
      (show (Except.ok (lit "old") : Except Nat Bytes) = Except.error 3 from h),
   resolveOnce_determined_by_responses (demoLib (demoEntry none (some 0) [100])) agingStore
    agingStore 95 none (lit "/ipns/QmA") demoOpts 0 40
    (fun hash pid h1 h2 => by
      have e1 : hash = lit "QmA" := by
        have : (Except.ok (lit "QmA") : Except Nat Bytes) = Except.ok hash := h1
        injection this with h; exact h.symm
      subst e1
      have e2 : pid = lit "QmA" := by
        have : (Except.ok (lit "QmA") : Except Nat PeerID) = Except.ok pid := h2
        injection this with h; exact h.symm
      subst e2
      rfl)
    (fun hash pid k h1 h2 _ => by
      have e1 : hash = lit "QmA" := by
        have : (Except.ok (lit "QmA") : Except Nat Bytes) = Except.ok hash := h1
        injection this with h; exact h.symm
      subst e1
      have e2 : pid = lit "QmA" := by
        have : (Except.ok (lit "QmA") : Except Nat PeerID) = Except.ok pid := h2
        injection this with h; exact h.symm
      subst e2
      rfl)⟩

/-! ## The Null routing stub -/

/-- Claim C9: the Null routing stub behaves the same whatever its arguments: `PutValue` and
`Provide` fail with `ErrNotSupported`, `GetValue` and `FindPeer` fail with `ErrNotFound`,
and `FindProvidersAsync` returns a closed, empty channel, a receive on which answers at
once with no value and `ok = false`. -/
theorem null_fixed_behaviour {Ctx Opt Cid PeerInfo : Type} :
    (∀ (ctx : Ctx) key value, Null.PutValue ctx key value = some RoutingError.ErrNotSupported)
    ∧ (∀ (ctx : Ctx) key (opts : List Opt),
        Null.GetValue ctx key opts = .error RoutingError.ErrNotFound)
    ∧ (∀ (ctx : Ctx) (c : Cid) bcast,
        Null.Provide ctx c bcast = some RoutingError.ErrNotSupported)
    ∧ (∀ (ctx : Ctx) (c : Cid) count,
        (Null.FindProvidersAsync ctx c count : Chan PeerInfo).closed = true ∧
        (Null.FindProvidersAsync ctx c count : Chan PeerInfo).queue = [] ∧
        (Null.FindProvidersAsync ctx c count : Chan PeerInfo).recv = some (none, false))
    ∧ (∀ (ctx : Ctx) p,
        (Null.FindPeer ctx p : Except RoutingError PeerInfo)
          = .error RoutingError.ErrNotFound) :=
  ⟨fun _ _ _ => rfl, fun _ _ _ => rfl, fun _ _ _ => rfl,
   fun _ _ _ => ⟨rfl, rfl, rfl⟩, fun _ _ => rfl⟩

/-! ## Stripping the naming-scheme marker (line 57) -/

/-- Claim C10: for a string `n` that does not begin with `"/ipns/"`, `resolveOnce` on
`"/ipns/" ++ n` has the same outcome as on `n`; and on `"/ipns//ipns/" ++ n` one marker is
left in place: the name handed to the decoder is `"/ipns/" ++ n`, so that the call fails
with the decoder's error for that string whatever `n` alone would decode to. -/
theorem resolveOnce_marker_stripped_once {σ Err Ctx Cid : Type} [DecidableEq Err]
    (L : Lib Err Ctx Cid) (r : ValueStore σ Err Ctx) (now : Int) (ctx : Ctx)
    (options : ResolveOpts) (s : σ) (n : GoString)
    (hn : HasPrefix n ipnsMarker = false) :
    resolveOnce L r now ctx (ipnsMarker ++ n) options s = resolveOnce L r now ctx n options s
    ∧ TrimPrefix (ipnsMarker ++ (ipnsMarker ++ n)) ipnsMarker = ipnsMarker ++ n
    ∧ TrimPrefix (ipnsMarker ++ (ipnsMarker ++ n)) ipnsMarker ≠ n
    ∧ (∀ e, L.FromB58String (ipnsMarker ++ n) = .error e →
        resolveOnce L r now ctx (ipnsMarker ++ (ipnsMarker ++ n)) options s
          = .returned ⟨[], 0, some e, s, []⟩) := by
  have h1 : TrimPrefix (ipnsMarker ++ n) ipnsMarker = n := trimPrefix_append _ _
  have h2 : TrimPrefix n ipnsMarker = n := trimPrefix_of_not_hasPrefix _ _ hn
  have h3 : TrimPrefix (ipnsMarker ++ (ipnsMarker ++ n)) ipnsMarker = ipnsMarker ++ n :=
    trimPrefix_append _ _
  refine ⟨?_, h3, ?_, ?_⟩
  · simp only [resolveOnce, h1, h2]
  · rw [h3]
    intro h
    have := congrArg List.length h
    simp [ipnsMarker, lit] at this
    omega
  · intro e he
    simp only [resolveOnce, h3, he]

theorem resolveOnce_marker_stripped_once_witness :
    resolveOnce (demoLib (demoEntry none (some 0) [100])) demoStore 95 none
        (ipnsMarker ++ lit "QmA") demoOpts 0
      = resolveOnce (demoLib (demoEntry none (some 0) [100])) demoStore 95 none
        (lit "QmA") demoOpts 0 :=
  (resolveOnce_marker_stripped_once (demoLib (demoEntry none (some 0) [100])) demoStore 95
    none demoOpts 0 (lit "QmA") (by decide)).1

end Namesys
